import Mathlib

/-!
Shallow embedding of the backend-chronopost payment-link service:
`models.py` (data model), `paypal_service.py` (gateway adapter) and
`server.py` (routes and webhook handler).

Modelling conventions:
* The Mongo collections become lists; `insert_one` appends, `update_one`
  updates the first matching document (`updateFirst`), `find_one` is
  `List.find?`.
* Timestamps (`datetime.now`) are passed in as a `Nat` parameter `now`;
  generated ids (uuid, order ids) are passed in as parameters.
* The external PayPal gateway is a function parameter returning
  `Except String _`; `Except.error` models a raised exception.
* A raised `HTTPException` / re-raised exception is an `Except.error`
  result paired with the store state at the moment of the raise.
-/

/-- models.PaymentLink (pydantic model; timestamps as Nat, defaults kept). -/
structure PaymentLink where
  id : String
  order_name : String := ""
  order_number : String := ""
  amount : String
  currency : String
  client_first_name : String := ""
  client_last_name : String := ""
  client_email : String := ""
  link : String := ""
  status : String := "Pending"
  reference : String := ""
  created_at : Nat := 0
  updated_at : Nat := 0
  paypal_order_id : Option String := none
deriving DecidableEq, Repr

/-- models.Transaction; `metadata` holds the error string of
`\x7b"error": str(e)\x7d` when present. -/
structure Transaction where
  id : String
  payment_link_id : String
  paypal_order_id : String
  paypal_capture_id : Option String := none
  amount : String
  currency : String
  status : String
  payer_email : Option String := none
  payer_name : Option String := none
  payer_id : Option String := none
  payment_method : String := "paypal"
  created_at : Nat := 0
  completed_at : Option Nat := none
  metadata : Option String := none
deriving DecidableEq, Repr

/-- The fields of a parsed PayPal webhook JSON payload that the handler
reads: `event_type`, `id`, `resource_type`, `resource.id`, and
`resource.supplementary_data.related_ids.order_id`.  A field is `none`
when the chained `.get(...)` lookups find nothing. -/
structure WebhookPayload where
  event_type : Option String := none
  id : Option String := none
  resource_type : Option String := none
  resource_id : Option String := none
  order_id : Option String := none
deriving DecidableEq, Repr

/-- models.WebhookLog. -/
structure WebhookLog where
  id : String
  event_type : String
  event_id : String
  resource_type : String
  resource_id : String
  payload : WebhookPayload
  verified : Bool := false
  processed : Bool := false
  created_at : Nat := 0
  error : Option String := none
deriving DecidableEq, Repr

/-- The three Mongo collections used by the payment flow. -/
structure DB where
  payment_links : List PaymentLink := []
  transactions : List Transaction := []
  webhook_logs : List WebhookLog := []
deriving DecidableEq, Repr

/-- Mongo `update_one`: apply `f` to the first element satisfying `p`. -/
def updateFirst (p : α → Bool) (f : α → α) : List α → List α
  | [] => []
  | x :: xs => if p x then f x :: xs else x :: updateFirst p f xs

/-- Mongo `update_one(...).modified_count > 0`: some document matched and
the `$set` actually changed it. -/
def modifiedFirst [DecidableEq α] (p : α → Bool) (f : α → α) (xs : List α) : Bool :=
  match xs.find? p with
  | none => false
  | some x => decide (f x ≠ x)

/-- server.update_payment_link_status (PUT /payment-links/.../status):
unconditionally `$set`s status (and optionally paypal_order_id) plus
`updated_at` on the first matching link, then raises 404 iff
`modified_count == 0`. -/
def update_payment_link_status (st : DB) (payment_id status : String)
    (paypal_order_id : Option String) (now : Nat) : DB × Except String Unit :=
  let setFields : PaymentLink → PaymentLink := fun l =>
    match paypal_order_id with
    | some oid => { l with status := status, updated_at := now, paypal_order_id := some oid }
    | none => { l with status := status, updated_at := now }
  let links := updateFirst (fun l => l.id == payment_id) setFields st.payment_links
  if modifiedFirst (fun l => l.id == payment_id) setFields st.payment_links then
    ({ st with payment_links := links }, Except.ok ())
  else
    ({ st with payment_links := links }, Except.error "Payment link not found")

/-- The amount/currency/reference fields of the order-create request body
submitted to the gateway (`purchase_units[0]`; the application-context
redirect urls carry no state and are omitted). -/
structure GatewayRequest where
  reference_id : String
  currency_code : String
  value : String
deriving DecidableEq, Repr

/-- The gateway's reply to an order-create call. -/
structure GatewayOrder where
  order_id : String
  status : String
  approval_url : Option String
deriving DecidableEq, Repr

/-- Character-level core of `amount.replace(',', '.').replace(' ', '')`:
Python `str.replace` with a single-character pattern substitutes every
occurrence, so comma-to-dot is a character map and dropping spaces is a
character filter. -/
def normChars (l : List Char) : List Char :=
  (l.map fun c => if c = ',' then '.' else c).filter fun c => c != ' '

/-- paypal_service.create_order line 65: `amount.replace(',', '.').replace(' ', '')`. -/
def normalize_amount (amount : String) : String :=
  String.mk (normChars amount.data)

/-- paypal_service.create_order line 75: `"USD" if currency == "Rs" else currency`. -/
def submitted_currency (currency : String) : String :=
  if currency == "Rs" then "USD" else currency

/-- The request body paypal_service.create_order submits to the gateway. -/
def create_order_request (amount currency reference : String) : GatewayRequest :=
  { reference_id := reference
    currency_code := submitted_currency currency
    value := normalize_amount amount }

/-- The dictionary paypal_service.create_order returns on success. -/
structure CreateOrderResult where
  order_id : String
  status : String
  approval_url : Option String
  amount : String
  currency : String
deriving DecidableEq, Repr

/-- paypal_service.PayPalService.create_order: normalizes the amount,
substitutes the currency for submission, calls the gateway, and returns
the normalized amount together with the ORIGINAL `currency` argument. -/
def PayPalService.create_order (amount currency reference : String)
    (gateway : GatewayRequest → Except String GatewayOrder) :
    Except String CreateOrderResult :=
  match gateway (create_order_request amount currency reference) with
  | Except.ok o =>
      Except.ok {
        order_id := o.order_id, status := o.status, approval_url := o.approval_url,
        amount := normalize_amount amount, currency := currency }
  | Except.error e => Except.error ("Failed to create PayPal order: " ++ e)

/-- The dictionary paypal_service.capture_order returns on success
(capture details extracted from the gateway response). -/
structure CaptureResult where
  order_id : String
  status : String
  capture_id : String
  amount : String
  currency : String
  capture_status : String := ""
  payer_email : Option String := none
  payer_name : Option String := none
  payer_id : Option String := none
deriving DecidableEq, Repr

/-- paypal_service.verify_webhook_signature: stubbed, always returns True. -/
def verify_webhook_signature (headers : List (String × String)) (body : String) : Bool :=
  true

/-- The JSON body returned by POST /api/paypal/create-order. -/
structure CreateOrderResponse where
  order_id : String
  approval_url : Option String
  status : String
deriving DecidableEq, Repr

/-- server.create_paypal_order (POST /api/paypal/create-order): 404 when
the link is absent, 400 when its status is not "Pending"; otherwise calls
the adapter, stores the order id on the link, and inserts a `CREATED`
Transaction recording the adapter's returned amount/currency. -/
def create_paypal_order (st : DB) (payment_id : String)
    (gateway : GatewayRequest → Except String GatewayOrder)
    (now : Nat) (txn_id : String) : DB × Except String CreateOrderResponse :=
  match st.payment_links.find? (fun l => l.id == payment_id) with
  | none => (st, Except.error "Payment link not found")
  | some payment_link =>
    if payment_link.status ≠ "Pending" then
      (st, Except.error "Payment link is not in pending status")
    else
      match PayPalService.create_order payment_link.amount payment_link.currency
          payment_link.reference gateway with
      | Except.error e => (st, Except.error e)
      | Except.ok order_result =>
        let links := updateFirst (fun l => l.id == payment_id)
          (fun l => { l with paypal_order_id := some order_result.order_id, updated_at := now })
          st.payment_links
        let txn : Transaction :=
          { id := txn_id, payment_link_id := payment_id
            paypal_order_id := order_result.order_id
            amount := order_result.amount, currency := order_result.currency
            status := "CREATED", created_at := now }
        ({ st with payment_links := links, transactions := st.transactions ++ [txn] },
         Except.ok {
           order_id := order_result.order_id
           approval_url := order_result.approval_url
           status := order_result.status })

/-- The JSON body returned by POST /api/paypal/capture-order. -/
structure CaptureResponse where
  order_id : String
  capture_id : String
  status : String
  payer_email : Option String
  payer_name : Option String
  amount : String
  currency : String
deriving DecidableEq, Repr

/-- server.capture_paypal_order (POST /api/paypal/capture-order).
`capture` is the outcome of `paypal_service.capture_order(order_id)`
(`Except.error` models the raised exception, message already wrapped).
On success: `$set` capture fields on the first Transaction matching the
order id, then `$set` status "Completed" on the link with the given
payment id.  On failure: `$set` status "FAILED" and the error into
metadata on the matching Transaction, then re-raise. -/
def capture_paypal_order (st : DB) (order_id payment_id : String)
    (capture : Except String CaptureResult) (now : Nat) :
    DB × Except String CaptureResponse :=
  match capture with
  | Except.ok c =>
    let txns := updateFirst (fun t => t.paypal_order_id == order_id)
      (fun t => { t with
        status := c.status, paypal_capture_id := some c.capture_id,
        payer_email := c.payer_email, payer_name := c.payer_name,
        payer_id := c.payer_id, completed_at := some now })
      st.transactions
    let links := updateFirst (fun l => l.id == payment_id)
      (fun l => { l with status := "Completed", updated_at := now })
      st.payment_links
    ({ st with transactions := txns, payment_links := links },
     Except.ok {
       order_id := order_id, capture_id := c.capture_id, status := c.status,
       payer_email := c.payer_email, payer_name := c.payer_name,
       amount := c.amount, currency := c.currency })
  | Except.error e =>
    let txns := updateFirst (fun t => t.paypal_order_id == order_id)
      (fun t => { t with status := "FAILED", metadata := some e })
      st.transactions
    ({ st with transactions := txns }, Except.error e)

/-- server.paypal_webhook, PAYMENT.CAPTURE.COMPLETED branch: `$set`
COMPLETED and a completion time on the first Transaction matching the
order id, then look up a PaymentLink by `paypal_order_id` and, if found,
`$set` its status to "Completed". -/
def apply_capture_completed (st : DB) (oid : String) (now : Nat) : DB :=
  let txns := updateFirst (fun t => t.paypal_order_id == oid)
    (fun t => { t with status := "COMPLETED", completed_at := some now })
    st.transactions
  let links :=
    match st.payment_links.find? (fun l => l.paypal_order_id == some oid) with
    | none => st.payment_links
    | some pl => updateFirst (fun l => l.id == pl.id)
        (fun l => { l with status := "Completed", updated_at := now })
        st.payment_links
  { st with transactions := txns, payment_links := links }

/-- server.paypal_webhook, PAYMENT.CAPTURE.DENIED branch: `$set` DENIED on
the first Transaction matching the order id, then look up a PaymentLink by
`paypal_order_id` and, if found, `$set` its status to "Failed". -/
def apply_capture_denied (st : DB) (oid : String) (now : Nat) : DB :=
  let txns := updateFirst (fun t => t.paypal_order_id == oid)
    (fun t => { t with status := "DENIED" })
    st.transactions
  let links :=
    match st.payment_links.find? (fun l => l.paypal_order_id == some oid) with
    | none => st.payment_links
    | some pl => updateFirst (fun l => l.id == pl.id)
        (fun l => { l with status := "Failed", updated_at := now })
        st.payment_links
  { st with transactions := txns, payment_links := links }

/-- The event-type dispatch of server.paypal_webhook (lines 523-568):
other event types, or a missing order id, change no Transaction/link. -/
def webhook_dispatch (st : DB) (payload : WebhookPayload) (now : Nat) : DB :=
  if payload.event_type == some "PAYMENT.CAPTURE.COMPLETED" then
    match payload.order_id with
    | some oid => apply_capture_completed st oid now
    | none => st
  else if payload.event_type == some "PAYMENT.CAPTURE.DENIED" then
    match payload.order_id with
    | some oid => apply_capture_denied st oid now
    | none => st
  else st

/-- The JSON body the webhook route returns; FastAPI sends it with HTTP
status 200 on both the success and the caught-exception path. -/
structure WebhookResponse where
  http_status : Nat := 200
  status : String
  message : Option String := none
deriving DecidableEq, Repr

/-- server.paypal_webhook (POST /api/webhooks/paypal).  `body` is the
outcome of `json.loads(body)`: `Except.error` is a parse failure, caught
by the handler's blanket `except`, which returns status "error" (still
HTTP 200) having stored nothing.  On a parsed payload: insert a WebhookLog
(verified hard-coded True, processed False), dispatch on the event type,
mark the log processed, and return status "success". -/
def paypal_webhook (st : DB) (body : Except String WebhookPayload)
    (now : Nat) (log_id : String) : DB × WebhookResponse :=
  match body with
  | Except.error e => (st, { status := "error", message := some e })
  | Except.ok payload =>
    let webhook_log : WebhookLog :=
      { id := log_id
        event_type := payload.event_type.getD "unknown"
        event_id := payload.id.getD "unknown"
        resource_type := payload.resource_type.getD "unknown"
        resource_id := payload.resource_id.getD "unknown"
        payload := payload
        verified := true
        processed := false
        created_at := now }
    let st1 : DB := { st with webhook_logs := st.webhook_logs ++ [webhook_log] }
    let st2 : DB := webhook_dispatch st1 payload now
    let marked := updateFirst (fun w => w.id == log_id)
      (fun w => { w with processed := true }) st2.webhook_logs
    let st3 : DB := { st2 with webhook_logs := marked }
    (st3, { status := "success" })

/-! ### Store-update lemmas -/

theorem length_updateFirst (p : α → Bool) (f : α → α) (xs : List α) :
    (updateFirst p f xs).length = xs.length := by
  induction xs with
  | nil => rfl
  | cons x xs ih =>
    by_cases hx : p x = true
    · simp [updateFirst, hx]
    · simp [updateFirst, hx, ih]

theorem updateFirst_of_all_false (p : α → Bool) (f : α → α) (xs : List α)
    (h : ∀ x ∈ xs, p x = false) : updateFirst p f xs = xs := by
  induction xs with
  | nil => rfl
  | cons x xs ih =>
    have hx := h x (by simp)
    simp [updateFirst, hx, ih fun y hy => h y (by simp [hy])]

theorem updateFirst_append_last (p : α → Bool) (f : α → α) (xs : List α) (x : α)
    (hxs : ∀ y ∈ xs, p y = false) (hx : p x = true) :
    updateFirst p f (xs ++ [x]) = xs ++ [f x] := by
  induction xs with
  | nil => simp [updateFirst, hx]
  | cons y ys ih =>
    have hy := hxs y (by simp)
    simp [updateFirst, hy, ih fun z hz => hxs z (by simp [hz])]

theorem find?_updateFirst_self (p : α → Bool) (f : α → α) (xs : List α)
    (hp : ∀ x, p (f x) = p x) :
    (updateFirst p f xs).find? p = (xs.find? p).map f := by
  induction xs with
  | nil => rfl
  | cons x xs ih =>
    by_cases hx : p x = true
    · simp [updateFirst, hx, List.find?_cons, hp]
    · simp [updateFirst, hx, List.find?_cons, ih]

theorem find?_map_updateFirst (p q : α → Bool) (f : α → α) (g : α → β) (xs : List α)
    (hp : ∀ x, p (f x) = p x) (hg : ∀ x, g (f x) = g x) :
    ((updateFirst q f xs).find? p).map g = (xs.find? p).map g := by
  induction xs with
  | nil => rfl
  | cons x xs ih =>
    by_cases hq : q x = true
    · by_cases hx : p x = true
      · simp [updateFirst, hq, List.find?_cons, hx, hp, hg]
      · simp [updateFirst, hq, List.find?_cons, hx, hp]
    · by_cases hx : p x = true
      · simp [updateFirst, hq, List.find?_cons, hx]
      · simp [updateFirst, hq, List.find?_cons, hx, ih]

theorem map_updateFirst_twice (q : α → Bool) (f1 f2 : α → α) (g : α → β) (xs : List α)
    (hq : ∀ x, q (f1 x) = q x) (hg : ∀ x, g (f2 (f1 x)) = g (f1 x)) :
    (updateFirst q f2 (updateFirst q f1 xs)).map g = (updateFirst q f1 xs).map g := by
  induction xs with
  | nil => rfl
  | cons x xs ih =>
    by_cases hx : q x = true
    · simp [updateFirst, hx, hq, hg]
    · simp [updateFirst, hx, ih]

theorem all_updateFirst (p : α → Bool) (f : α → α) (g : α → Bool) (xs : List α)
    (hg : ∀ x, g (f x) = g x) :
    (updateFirst p f xs).all g = xs.all g := by
  induction xs with
  | nil => rfl
  | cons x xs ih =>
    by_cases hx : p x = true
    · simp [updateFirst, hx, hg]
    · simp [updateFirst, hx, ih]

/-! ### Amount-normalization lemmas -/

theorem normChars_cons (c : Char) (l : List Char) :
    normChars (c :: l) =
      if c = ' ' then normChars l
      else (if c = ',' then '.' else c) :: normChars l := by
  by_cases hs : c = ' '
  · subst hs; simp [normChars]
  · by_cases hc : c = ','
    · subst hc; simp [normChars]
    · simp [normChars, hs, hc]

theorem count_dot_normChars (l : List Char) :
    (normChars l).count '.' = l.count ',' + l.count '.' := by
  induction l with
  | nil => rfl
  | cons c l ih =>
    by_cases hs : c = ' '
    · subst hs; simp [normChars_cons, List.count_cons, ih]
    · by_cases hc : c = ','
      · subst hc; simp [normChars_cons, List.count_cons, ih]; omega
      · by_cases hd : c = '.'
        · subst hd; simp [normChars_cons, List.count_cons, ih]; omega
        · simp [normChars_cons, hs, hc, hd, List.count_cons, ih]

theorem count_comma_normChars (l : List Char) : (normChars l).count ',' = 0 := by
  induction l with
  | nil => rfl
  | cons c l ih =>
    by_cases hs : c = ' '
    · subst hs; simp [normChars_cons, ih]
    · by_cases hc : c = ','
      · subst hc; simp [normChars_cons, List.count_cons, ih]
      · simp [normChars_cons, hs, hc, List.count_cons, ih]

theorem count_space_normChars (l : List Char) : (normChars l).count ' ' = 0 := by
  induction l with
  | nil => rfl
  | cons c l ih =>
    by_cases hs : c = ' '
    · subst hs; simp [normChars_cons, ih]
    · by_cases hc : c = ','
      · subst hc; simp [normChars_cons, List.count_cons, ih]
      · simp [normChars_cons, hs, hc, List.count_cons, ih]

theorem mem_normChars (l : List Char) (c : Char)
    (h1 : ∀ d ∈ l, d.isDigit = true ∨ d = ' ' ∨ d = ',' ∨ d = '.')
    (hc : c ∈ normChars l) :
    c.isDigit = true ∨ c = '.' := by
  induction l with
  | nil => simp [normChars] at hc
  | cons d l ih =>
    have hd := h1 d (by simp)
    have hrec := fun hm => ih (fun y hy => h1 y (by simp [hy])) hm
    rw [normChars_cons] at hc
    by_cases hs : d = ' '
    · rw [if_pos hs] at hc
      exact hrec hc
    · rw [if_neg hs] at hc
      rcases List.mem_cons.mp hc with hhd | htl
      · subst hhd
        by_cases hcm : d = ','
        · simp [hcm]
        · rw [if_neg hcm]
          rcases hd with h | h | h | h
          · exact Or.inl h
          · exact absurd h hs
          · exact absurd h hcm
          · exact Or.inr h
      · exact hrec htl

/-! ### Concrete fixtures used by witnesses and counterexamples -/

/-- A gateway stub that accepts every order-create request. -/
def okGateway : GatewayRequest → Except String GatewayOrder := fun _ =>
  Except.ok { order_id := "ORD-1", status := "CREATED", approval_url := some "https://paypal/approve" }

/-- A payment link already in the terminal status "Completed". -/
def linkCompleted : PaymentLink :=
  { id := "PAY-1", amount := "100", currency := "Rs", status := "Completed" }

/-! ### C1 -/

/-- C1 (as stated) is FALSE: on a PaymentLink whose stored status is the
terminal "Completed", the PUT status operation with status "Pending" is
accepted (`Except.ok`) and the stored status CHANGES to "Pending" — the
store has no terminal-status guard. -/
theorem C1_counterexample :
    (update_payment_link_status { payment_links := [linkCompleted] } "PAY-1" "Pending" none 1).2
        = Except.ok () ∧
    (update_payment_link_status
        { payment_links := [linkCompleted] } "PAY-1" "Pending" none 1).1.payment_links.map
        PaymentLink.status = ["Pending"] := by
  exact ⟨rfl, rfl⟩

/-- C1 amended: `setStatus` on a PaymentLink in a terminal status
("Completed" or "Failed") is accepted without error, but it OVERWRITES the
stored status with the requested one whenever that differs — terminal
statuses are not immutable. -/
theorem C1_amended (st : DB) (pid s : String) (oid : Option String) (now : Nat)
    (l : PaymentLink)
    (hfind : st.payment_links.find? (fun x => x.id == pid) = some l)
    (hterm : l.status = "Completed" ∨ l.status = "Failed")
    (hne : s ≠ l.status) :
    (update_payment_link_status st pid s oid now).2 = Except.ok () ∧
    ((update_payment_link_status st pid s oid now).1.payment_links.find?
        (fun x => x.id == pid)).map PaymentLink.status = some s := by
  rcases oid with _ | o
  · unfold update_payment_link_status modifiedFirst
    dsimp only
    rw [hfind]
    dsimp only
    have hmod : decide (({ l with status := s, updated_at := now } : PaymentLink) ≠ l) = true :=
      decide_eq_true fun hEq => hne (congrArg PaymentLink.status hEq)
    rw [hmod, if_pos rfl]
    refine ⟨rfl, ?_⟩
    have hfu := find?_updateFirst_self (fun x : PaymentLink => x.id == pid)
      (fun x => { x with status := s, updated_at := now }) st.payment_links (fun _ => rfl)
    dsimp only
    rw [hfu, hfind]
    rfl
  · unfold update_payment_link_status modifiedFirst
    dsimp only
    rw [hfind]
    dsimp only
    have hmod : decide
        (({ l with status := s, updated_at := now, paypal_order_id := some o } : PaymentLink) ≠ l)
          = true :=
      decide_eq_true fun hEq => hne (congrArg PaymentLink.status hEq)
    rw [hmod, if_pos rfl]
    refine ⟨rfl, ?_⟩
    have hfu := find?_updateFirst_self (fun x : PaymentLink => x.id == pid)
      (fun x => { x with status := s, updated_at := now, paypal_order_id := some o })
      st.payment_links (fun _ => rfl)
    dsimp only
    rw [hfu, hfind]
    rfl

/-! ### C4 -/

/-- C4: when the gateway capture raises, the first Transaction matching
the order id is set to status "FAILED" with the error recorded in its
metadata, the error is re-raised to the caller, and the payment-links
collection is untouched. -/
theorem C4_capture_failure (st : DB) (order_id payment_id e : String) (now : Nat)
    (t : Transaction)
    (hfind : st.transactions.find? (fun x => x.paypal_order_id == order_id) = some t) :
    (capture_paypal_order st order_id payment_id (Except.error e) now).2 = Except.error e ∧
    (capture_paypal_order st order_id payment_id (Except.error e) now).1.payment_links
        = st.payment_links ∧
    (capture_paypal_order st order_id payment_id (Except.error e) now).1.transactions.find?
        (fun x => x.paypal_order_id == order_id)
      = some { t with status := "FAILED", metadata := some e } := by
  refine ⟨rfl, rfl, ?_⟩
  show (updateFirst (fun x => x.paypal_order_id == order_id)
      (fun x => { x with status := "FAILED", metadata := some e }) st.transactions).find?
      (fun x => x.paypal_order_id == order_id) = _
  rw [find?_updateFirst_self (fun x : Transaction => x.paypal_order_id == order_id)
    (fun x => { x with status := "FAILED", metadata := some e }) st.transactions (fun _ => rfl),
    hfind]
  rfl

/-- A CREATED transaction for order "O1" owned by link "P1". -/
def txnCreated : Transaction :=
  { id := "T1", payment_link_id := "P1", paypal_order_id := "O1",
    amount := "100", currency := "USD", status := "CREATED" }

/-- Witness for C4 at a concrete store with one matching transaction. -/
theorem C4_capture_failure_witness :
    (capture_paypal_order { transactions := [txnCreated] } "O1" "P1"
        (Except.error "Failed to capture PayPal order: boom") 5).2
      = Except.error "Failed to capture PayPal order: boom" ∧
    (capture_paypal_order { transactions := [txnCreated] } "O1" "P1"
        (Except.error "Failed to capture PayPal order: boom") 5).1.payment_links = [] ∧
    (capture_paypal_order { transactions := [txnCreated] } "O1" "P1"
        (Except.error "Failed to capture PayPal order: boom") 5).1.transactions.find?
        (fun x => x.paypal_order_id == "O1")
      = some { txnCreated with
               status := "FAILED"
               metadata := some "Failed to capture PayPal order: boom" } :=
  C4_capture_failure { transactions := [txnCreated] } "O1" "P1"
    "Failed to capture PayPal order: boom" 5 txnCreated rfl

/-- Witness for C1 amended: overwriting a "Completed" link with "Pending". -/
theorem C1_amended_witness :
    (update_payment_link_status { payment_links := [linkCompleted] } "PAY-1" "Pending" none 2).2
        = Except.ok () ∧
    ((update_payment_link_status
        { payment_links := [linkCompleted] } "PAY-1" "Pending" none 2).1.payment_links.find?
        (fun x => x.id == "PAY-1")).map PaymentLink.status = some "Pending" :=
  C1_amended { payment_links := [linkCompleted] } "PAY-1" "Pending" none 2 linkCompleted
    rfl (Or.inl rfl) (by decide)

/-! ### C5 -/

/-- C5 (as stated) is FALSE: on an unparseable webhook body the handler's
blanket `except` fires BEFORE any WebhookLog insert, so nothing at all is
stored (no record with `processed = false` and an error note exists), and
the response body carries status "error", not "success". -/
theorem C5_counterexample :
    (paypal_webhook {} (Except.error "Expecting value") 0 "W1").1.webhook_logs = [] ∧
    (paypal_webhook {} (Except.error "Expecting value") 0 "W1").2.status ≠ "success" :=
  ⟨rfl, by decide⟩

/-- C5 amended: a malformed webhook payload stores NO WebhookEvent record
at all and leaves the whole store unchanged; the handler still replies
with HTTP status 200 (so the provider sees a delivered request), but the
returned JSON body is status "error" with the parse error message, not a
success acknowledgment. -/
theorem C5_amended (st : DB) (e : String) (now : Nat) (lid : String) :
    paypal_webhook st (Except.error e) now lid
      = (st, { http_status := 200, status := "error", message := some e }) :=
  rfl

/-! ### C9 -/

/-- C9: the synchronous capture endpoint trusts the caller-supplied
payment id independently of the order id — whenever the gateway capture
succeeds, the PaymentLink with that id is set to "Completed" and a success
response is returned, with no condition at all on the transactions
collection (no matching Transaction, or a matching Transaction owned by a
different PaymentLink, makes no difference). -/
theorem C9_capture_trusts_payment_id (st : DB) (order_id payment_id : String)
    (c : CaptureResult) (now : Nat) (l : PaymentLink)
    (hfind : st.payment_links.find? (fun x => x.id == payment_id) = some l) :
    ((capture_paypal_order st order_id payment_id (Except.ok c) now).1.payment_links.find?
        (fun x => x.id == payment_id)).map PaymentLink.status = some "Completed" ∧
    ∃ r, (capture_paypal_order st order_id payment_id (Except.ok c) now).2 = Except.ok r := by
  constructor
  · show ((updateFirst (fun x : PaymentLink => x.id == payment_id)
        (fun x => { x with status := "Completed", updated_at := now })
        st.payment_links).find? (fun x => x.id == payment_id)).map PaymentLink.status = _
    rw [find?_updateFirst_self (fun x : PaymentLink => x.id == payment_id)
      (fun x => { x with status := "Completed", updated_at := now })
      st.payment_links (fun _ => rfl), hfind]
    rfl
  · exact ⟨_, rfl⟩

/-- A pending link with no PayPal order attached. -/
def linkPending : PaymentLink :=
  { id := "PAY-9", amount := "50", currency := "EUR", status := "Pending" }

/-- A transaction for a DIFFERENT order, owned by a DIFFERENT link. -/
def txnOtherOrder : Transaction :=
  { id := "T2", payment_link_id := "SOMEBODY-ELSE", paypal_order_id := "OTHER-ORDER",
    amount := "1", currency := "USD", status := "CREATED" }

/-- A successful gateway capture outcome. -/
def captureOk : CaptureResult :=
  { order_id := "O9", status := "COMPLETED", capture_id := "CAP-1",
    amount := "50", currency := "EUR" }

/-- Witness for C9: the store holds no Transaction for order "O9" (the
only Transaction is for another order and another link), yet the capture
completes link "PAY-9". -/
theorem C9_capture_trusts_payment_id_witness :
    ((capture_paypal_order { payment_links := [linkPending], transactions := [txnOtherOrder] }
        "O9" "PAY-9" (Except.ok captureOk) 7).1.payment_links.find?
        (fun x => x.id == "PAY-9")).map PaymentLink.status = some "Completed" ∧
    ∃ r, (capture_paypal_order { payment_links := [linkPending], transactions := [txnOtherOrder] }
        "O9" "PAY-9" (Except.ok captureOk) 7).2 = Except.ok r :=
  C9_capture_trusts_payment_id
    { payment_links := [linkPending], transactions := [txnOtherOrder] }
    "O9" "PAY-9" captureOk 7 linkPending rfl

/-! ### C10 -/

/-- C10: creating a gateway order fails with an error whenever the
PaymentLink is absent or its stored status is not "Pending", and in that
case the whole store is unchanged — no Transaction is created and no
PaymentLink field is modified. -/
theorem C10_create_order_guard (st : DB) (pid : String)
    (gateway : GatewayRequest → Except String GatewayOrder) (now : Nat) (tid : String)
    (h : st.payment_links.find? (fun x => x.id == pid) = none ∨
         ∃ l, st.payment_links.find? (fun x => x.id == pid) = some l ∧ l.status ≠ "Pending") :
    (create_paypal_order st pid gateway now tid).1 = st ∧
    ∃ e, (create_paypal_order st pid gateway now tid).2 = Except.error e := by
  unfold create_paypal_order
  rcases h with h | ⟨l, hl, hs⟩
  · rw [h]
    exact ⟨rfl, _, rfl⟩
  · rw [hl]
    dsimp only
    rw [if_pos hs]
    exact ⟨rfl, _, rfl⟩

/-- Witness for C10 at a store whose only link is already "Completed":
creating an order for it errors and changes nothing. -/
theorem C10_create_order_guard_witness :
    (create_paypal_order { payment_links := [linkCompleted] } "PAY-1" okGateway 3 "T9").1
        = { payment_links := [linkCompleted] } ∧
    ∃ e, (create_paypal_order { payment_links := [linkCompleted] } "PAY-1" okGateway 3 "T9").2
        = Except.error e :=
  C10_create_order_guard { payment_links := [linkCompleted] } "PAY-1" okGateway 3 "T9"
    (Or.inr ⟨linkCompleted, rfl, by decide⟩)

/-! ### C3 -/

/-- A pending "Rs" payment link. -/
def linkRs : PaymentLink :=
  { id := "PAY-2", amount := "100", currency := "Rs", status := "Pending", reference := "REF-1" }

/-- C3 (as stated) is FALSE in its second half: for `currency = "Rs"` the
gateway is indeed sent "USD", but the adapter returns the ORIGINAL
currency string, so the returned result and the recorded Transaction carry
"Rs", not "USD". -/
theorem C3_counterexample :
    (PayPalService.create_order "100" "Rs" "REF-1" okGateway).map CreateOrderResult.currency
        = Except.ok "Rs" ∧
    (create_paypal_order { payment_links := [linkRs] } "PAY-2" okGateway 1 "T1").1.transactions.map
        Transaction.currency = ["Rs"] ∧
    "Rs" ≠ "USD" :=
  ⟨rfl, rfl, by decide⟩

/-- C3 amended: `createOrder` with currency "Rs" submits currency "USD" to
the gateway, but the substitution is NOT recorded downstream: the adapter
result and the Transaction created for the order both carry the original
"Rs". -/
theorem C3_amended (st : DB) (pid : String) (l : PaymentLink) (now : Nat) (tid : String)
    (gateway : GatewayRequest → Except String GatewayOrder) (o : GatewayOrder)
    (hfind : st.payment_links.find? (fun x => x.id == pid) = some l)
    (hcur : l.currency = "Rs") (hpend : l.status = "Pending")
    (hgw : gateway (create_order_request l.amount l.currency l.reference) = Except.ok o) :
    (create_order_request l.amount l.currency l.reference).currency_code = "USD" ∧
    ∃ txn, (create_paypal_order st pid gateway now tid).1.transactions
        = st.transactions ++ [txn] ∧ txn.currency = "Rs" := by
  constructor
  · show submitted_currency l.currency = "USD"
    rw [hcur]
    rfl
  · unfold create_paypal_order
    rw [hfind]
    dsimp only
    rw [if_neg (fun hcon => hcon hpend)]
    unfold PayPalService.create_order
    rw [hgw]
    dsimp only
    exact ⟨_, rfl, hcur⟩

/-- Witness for C3 amended on a concrete store with the "Rs" link. -/
theorem C3_amended_witness :
    (create_order_request linkRs.amount linkRs.currency linkRs.reference).currency_code
        = "USD" ∧
    ∃ txn, (create_paypal_order { payment_links := [linkRs] } "PAY-2" okGateway 1 "T1").1.transactions
        = ([] : List Transaction) ++ [txn] ∧ txn.currency = "Rs" :=
  C3_amended { payment_links := [linkRs] } "PAY-2" linkRs 1 "T1" okGateway
    { order_id := "ORD-1", status := "CREATED", approval_url := some "https://paypal/approve" }
    rfl rfl rfl rfl

/-! ### C7 -/

/-- C7: the pre-submission amount normalization maps any decimal string
whose characters are digits or spaces plus at most one separator character
(',' or '.') to a canonical decimal-dot form — only digits and at most one
'.', with every comma and space removed; in particular it maps
"1 234,56" to "1234.56" and leaves "1234.56" unchanged. -/
theorem C7_amount_normalization :
    (∀ s : String,
        (∀ c ∈ s.data, c.isDigit = true ∨ c = ' ' ∨ c = ',' ∨ c = '.') →
        s.data.count ',' + s.data.count '.' ≤ 1 →
        ((∀ c ∈ (normalize_amount s).data, c.isDigit = true ∨ c = '.') ∧
         (normalize_amount s).data.count '.' ≤ 1 ∧
         (normalize_amount s).data.count ',' = 0 ∧
         (normalize_amount s).data.count ' ' = 0)) ∧
    normalize_amount "1 234,56" = "1234.56" ∧
    normalize_amount "1234.56" = "1234.56" := by
  refine ⟨fun s h1 h2 => ⟨fun c hc => ?_, ?_, ?_, ?_⟩, rfl, rfl⟩
  · exact mem_normChars s.data c h1 hc
  · show (normChars s.data).count '.' ≤ 1
    rw [count_dot_normChars]
    exact h2
  · exact count_comma_normChars s.data
  · exact count_space_normChars s.data

/-- Witness for C7 at the spec's concrete input "1 234,56". -/
theorem C7_amount_normalization_witness :
    (∀ c ∈ (normalize_amount "1 234,56").data, c.isDigit = true ∨ c = '.') ∧
    (normalize_amount "1 234,56").data.count '.' ≤ 1 ∧
    (normalize_amount "1 234,56").data.count ',' = 0 ∧
    (normalize_amount "1 234,56").data.count ' ' = 0 :=
  C7_amount_normalization.1 "1 234,56" (by decide) (by decide)

/-! ### Webhook handler structure lemmas -/

theorem webhook_dispatch_logs (st : DB) (p : WebhookPayload) (now : Nat) :
    (webhook_dispatch st p now).webhook_logs = st.webhook_logs := by
  by_cases h1 : (p.event_type == some "PAYMENT.CAPTURE.COMPLETED") = true
  · cases ho : p.order_id with
    | none => simp [webhook_dispatch, h1, ho]
    | some oid => simp [webhook_dispatch, h1, ho, apply_capture_completed]
  · by_cases h2 : (p.event_type == some "PAYMENT.CAPTURE.DENIED") = true
    · cases ho : p.order_id with
      | none => simp [webhook_dispatch, h1, h2, ho]
      | some oid => simp [webhook_dispatch, h1, h2, ho, apply_capture_denied]
    · simp [webhook_dispatch, h1, h2]

theorem webhook_dispatch_congr (st1 st2 : DB) (p : WebhookPayload) (now : Nat)
    (hT : st1.transactions = st2.transactions)
    (hL : st1.payment_links = st2.payment_links) :
    (webhook_dispatch st1 p now).transactions = (webhook_dispatch st2 p now).transactions ∧
    (webhook_dispatch st1 p now).payment_links = (webhook_dispatch st2 p now).payment_links := by
  by_cases h1 : (p.event_type == some "PAYMENT.CAPTURE.COMPLETED") = true
  · cases ho : p.order_id with
    | none => simp [webhook_dispatch, h1, ho, hT, hL]
    | some oid => simp [webhook_dispatch, h1, ho, apply_capture_completed, hT, hL]
  · by_cases h2 : (p.event_type == some "PAYMENT.CAPTURE.DENIED") = true
    · cases ho : p.order_id with
      | none => simp [webhook_dispatch, h1, h2, ho, hT, hL]
      | some oid => simp [webhook_dispatch, h1, h2, ho, apply_capture_denied, hT, hL]
    · simp [webhook_dispatch, h1, h2, hT, hL]

/-- The WebhookLog the handler inserts for a parsed payload. -/
def insertedLog (p : WebhookPayload) (now : Nat) (lid : String) : WebhookLog :=
  { id := lid
    event_type := p.event_type.getD "unknown"
    event_id := p.id.getD "unknown"
    resource_type := p.resource_type.getD "unknown"
    resource_id := p.resource_id.getD "unknown"
    payload := p
    verified := true
    processed := false
    created_at := now }

theorem paypal_webhook_ok_spec (st : DB) (p : WebhookPayload) (now : Nat) (lid : String) :
    (paypal_webhook st (Except.ok p) now lid).1.transactions
        = (webhook_dispatch st p now).transactions ∧
    (paypal_webhook st (Except.ok p) now lid).1.payment_links
        = (webhook_dispatch st p now).payment_links ∧
    (paypal_webhook st (Except.ok p) now lid).1.webhook_logs
        = updateFirst (fun w => w.id == lid) (fun w => { w with processed := true })
            ((webhook_dispatch { st with
                webhook_logs := st.webhook_logs ++ [insertedLog p now lid] } p now).webhook_logs)
        ∧
    (paypal_webhook st (Except.ok p) now lid).2 = { status := "success" } := by
  have hc := webhook_dispatch_congr
    { st with webhook_logs := st.webhook_logs ++ [insertedLog p now lid] } st p now rfl rfl
  exact ⟨hc.1, hc.2, rfl, rfl⟩

/-! ### C8 -/

/-- C8: webhook signature verification is a stub — it returns `true` on
every input — and the ingest path never consults it anyway: every
WebhookEvent record the webhook handler stores has `verified = true`
hard-coded (if all stored events are verified before a request, they all
are after it, whatever the request body). -/
theorem C8_verified_unconditionally :
    (∀ headers body, verify_webhook_signature headers body = true) ∧
    ∀ (st : DB) (body : Except String WebhookPayload) (now : Nat) (lid : String),
      (st.webhook_logs.all fun w => w.verified) = true →
      ((paypal_webhook st body now lid).1.webhook_logs.all fun w => w.verified) = true := by
  refine ⟨fun _ _ => rfl, ?_⟩
  intro st body now lid hall
  cases body with
  | error e => exact hall
  | ok p =>
    rw [(paypal_webhook_ok_spec st p now lid).2.2.1]
    rw [all_updateFirst (fun w : WebhookLog => w.id == lid)
      (fun w => { w with processed := true }) (fun w => w.verified) _ (fun _ => rfl)]
    rw [webhook_dispatch_logs]
    show ((st.webhook_logs ++ [insertedLog p now lid]).all fun w => w.verified) = true
    rw [List.all_append, hall]
    rfl

/-- A COMPLETED capture payload for order "O1", provider event "EV1". -/
def payloadCompleted : WebhookPayload :=
  { event_type := some "PAYMENT.CAPTURE.COMPLETED", id := some "EV1", order_id := some "O1" }

/-- Witness for C8 on the empty store and a concrete payload. -/
theorem C8_verified_unconditionally_witness :
    verify_webhook_signature [] "" = true ∧
    ((paypal_webhook {} (Except.ok payloadCompleted) 0 "W1").1.webhook_logs.all
        fun w => w.verified) = true :=
  ⟨C8_verified_unconditionally.1 [] "",
   C8_verified_unconditionally.2 {} (Except.ok payloadCompleted) 0 "W1" rfl⟩

theorem webhook_dispatch_completed (st : DB) (p : WebhookPayload) (now : Nat) (oid : String)
    (hev : p.event_type = some "PAYMENT.CAPTURE.COMPLETED") (hoid : p.order_id = some oid) :
    webhook_dispatch st p now = apply_capture_completed st oid now := by
  unfold webhook_dispatch
  rw [hev, hoid]
  rfl

theorem webhook_dispatch_completed_none (st : DB) (p : WebhookPayload) (now : Nat)
    (hev : p.event_type = some "PAYMENT.CAPTURE.COMPLETED") (hoid : p.order_id = none) :
    webhook_dispatch st p now = st := by
  unfold webhook_dispatch
  rw [hev, hoid]
  rfl

theorem webhook_dispatch_denied (st : DB) (p : WebhookPayload) (now : Nat) (oid : String)
    (hev : p.event_type = some "PAYMENT.CAPTURE.DENIED") (hoid : p.order_id = some oid) :
    webhook_dispatch st p now = apply_capture_denied st oid now := by
  unfold webhook_dispatch
  rw [hev, hoid]
  rfl

theorem apply_capture_completed_links (st : DB) (oid : String) (t : Nat) :
    (apply_capture_completed st oid t).payment_links
      = match st.payment_links.find? (fun l => l.paypal_order_id == some oid) with
        | none => st.payment_links
        | some pl => updateFirst (fun l => l.id == pl.id)
            (fun l => { l with status := "Completed", updated_at := t })
            st.payment_links := rfl

/-! ### C2 -/

/-- A pending link tied to PayPal order "O1". -/
def linkWithO1 : PaymentLink :=
  { id := "PAY-4", amount := "5", currency := "USD", status := "Pending",
    paypal_order_id := some "O1" }

/-- The CREATED transaction for order "O1". -/
def txnForO1 : Transaction :=
  { id := "T4", payment_link_id := "PAY-4", paypal_order_id := "O1",
    amount := "5", currency := "USD", status := "CREATED" }

/-- C2 (as stated) is FALSE: re-processing the same COMPLETED event (same
provider event id "EV1") is NOT a no-op — the second application re-writes
the Transaction (its `completed_at` becomes the second processing time),
so the final Transaction state differs from applying the event once. -/
theorem C2_counterexample :
    (paypal_webhook (paypal_webhook { payment_links := [linkWithO1], transactions := [txnForO1] }
          (Except.ok payloadCompleted) 1 "W1").1
        (Except.ok payloadCompleted) 2 "W2").1.transactions
      ≠ (paypal_webhook { payment_links := [linkWithO1], transactions := [txnForO1] }
          (Except.ok payloadCompleted) 1 "W1").1.transactions := by
  decide

/-- C2 amended: the webhook handler performs no event-id deduplication.
Re-applying the same COMPLETED event leaves every Transaction status and
every PaymentLink status unchanged (the transition is idempotent on the
status fields), but the second application appends a second WebhookEvent
record (and, as the counterexample shows, re-writes the matched
Transaction's completion timestamp) instead of being a no-op. -/
theorem C2_amended (st : DB) (p : WebhookPayload) (t1 t2 : Nat) (w1 w2 : String)
    (hev : p.event_type = some "PAYMENT.CAPTURE.COMPLETED") :
    ((paypal_webhook (paypal_webhook st (Except.ok p) t1 w1).1
        (Except.ok p) t2 w2).1.transactions.map Transaction.status
      = (paypal_webhook st (Except.ok p) t1 w1).1.transactions.map Transaction.status) ∧
    ((paypal_webhook (paypal_webhook st (Except.ok p) t1 w1).1
        (Except.ok p) t2 w2).1.payment_links.map PaymentLink.status
      = (paypal_webhook st (Except.ok p) t1 w1).1.payment_links.map PaymentLink.status) ∧
    (paypal_webhook (paypal_webhook st (Except.ok p) t1 w1).1
        (Except.ok p) t2 w2).1.webhook_logs.length
      = (paypal_webhook st (Except.ok p) t1 w1).1.webhook_logs.length + 1 := by
  obtain ⟨hA_T, hA_L, hA_logs, -⟩ := paypal_webhook_ok_spec st p t1 w1
  obtain ⟨hB_T, hB_L, hB_logs, -⟩ :=
    paypal_webhook_ok_spec (paypal_webhook st (Except.ok p) t1 w1).1 p t2 w2
  have hcongr := webhook_dispatch_congr (paypal_webhook st (Except.ok p) t1 w1).1
    (webhook_dispatch st p t1) p t2 hA_T hA_L
  refine ⟨?_, ?_, ?_⟩
  · rw [hB_T, hA_T, hcongr.1]
    cases ho : p.order_id with
    | none =>
      rw [webhook_dispatch_completed_none st p t1 hev ho,
          webhook_dispatch_completed_none st p t2 hev ho]
    | some oid =>
      rw [webhook_dispatch_completed st p t1 oid hev ho,
          webhook_dispatch_completed (apply_capture_completed st oid t1) p t2 oid hev ho]
      show ((updateFirst (fun t => t.paypal_order_id == oid)
          (fun t => { t with status := "COMPLETED", completed_at := some t2 })
          (updateFirst (fun t => t.paypal_order_id == oid)
            (fun t => { t with status := "COMPLETED", completed_at := some t1 })
            st.transactions)).map Transaction.status) = _
      rw [map_updateFirst_twice (fun t : Transaction => t.paypal_order_id == oid)
        (fun t => { t with status := "COMPLETED", completed_at := some t1 })
        (fun t => { t with status := "COMPLETED", completed_at := some t2 })
        Transaction.status st.transactions (fun _ => rfl) (fun _ => rfl)]
      rfl
  · rw [hB_L, hA_L, hcongr.2]
    cases ho : p.order_id with
    | none =>
      rw [webhook_dispatch_completed_none st p t1 hev ho,
          webhook_dispatch_completed_none st p t2 hev ho]
    | some oid =>
      rw [webhook_dispatch_completed st p t1 oid hev ho,
          webhook_dispatch_completed (apply_capture_completed st oid t1) p t2 oid hev ho]
      cases hf : st.payment_links.find? (fun l => l.paypal_order_id == some oid) with
      | none =>
        have h1 : (apply_capture_completed st oid t1).payment_links = st.payment_links := by
          rw [apply_capture_completed_links, hf]
        rw [apply_capture_completed_links (apply_capture_completed st oid t1) oid t2, h1, hf]
      | some pl =>
        have h1 : (apply_capture_completed st oid t1).payment_links
            = updateFirst (fun l => l.id == pl.id)
                (fun l => { l with status := "Completed", updated_at := t1 })
                st.payment_links := by
          rw [apply_capture_completed_links, hf]
        have hmap := find?_map_updateFirst (fun l : PaymentLink => l.paypal_order_id == some oid)
          (fun l => l.id == pl.id)
          (fun l => { l with status := "Completed", updated_at := t1 })
          PaymentLink.id st.payment_links (fun _ => rfl) (fun _ => rfl)
        rw [hf] at hmap
        cases h2 : (updateFirst (fun l => l.id == pl.id)
            (fun l => { l with status := "Completed", updated_at := t1 })
            st.payment_links).find? (fun l => l.paypal_order_id == some oid) with
        | none =>
          rw [h2] at hmap
          simp at hmap
        | some pl2 =>
          rw [h2] at hmap
          have hid : pl2.id = pl.id := by
            simpa using hmap
          rw [apply_capture_completed_links (apply_capture_completed st oid t1) oid t2, h1, h2]
          show ((updateFirst (fun l => l.id == pl2.id)
              (fun l => { l with status := "Completed", updated_at := t2 })
              (updateFirst (fun l => l.id == pl.id)
                (fun l => { l with status := "Completed", updated_at := t1 })
                st.payment_links)).map PaymentLink.status) = _
          rw [hid]
          rw [map_updateFirst_twice (fun l : PaymentLink => l.id == pl.id)
            (fun l => { l with status := "Completed", updated_at := t1 })
            (fun l => { l with status := "Completed", updated_at := t2 })
            PaymentLink.status st.payment_links (fun _ => rfl) (fun _ => rfl)]
  · rw [hB_logs, length_updateFirst, webhook_dispatch_logs]
    show ((paypal_webhook st (Except.ok p) t1 w1).1.webhook_logs
        ++ [insertedLog p t2 w2]).length = _
    rw [List.length_append]
    rfl

/-- Witness for C2 amended on the one-link/one-transaction store. -/
theorem C2_amended_witness :
    ((paypal_webhook (paypal_webhook { payment_links := [linkWithO1], transactions := [txnForO1] }
          (Except.ok payloadCompleted) 1 "W1").1
        (Except.ok payloadCompleted) 2 "W2").1.transactions.map Transaction.status
      = (paypal_webhook { payment_links := [linkWithO1], transactions := [txnForO1] }
          (Except.ok payloadCompleted) 1 "W1").1.transactions.map Transaction.status) ∧
    ((paypal_webhook (paypal_webhook { payment_links := [linkWithO1], transactions := [txnForO1] }
          (Except.ok payloadCompleted) 1 "W1").1
        (Except.ok payloadCompleted) 2 "W2").1.payment_links.map PaymentLink.status
      = (paypal_webhook { payment_links := [linkWithO1], transactions := [txnForO1] }
          (Except.ok payloadCompleted) 1 "W1").1.payment_links.map PaymentLink.status) ∧
    (paypal_webhook (paypal_webhook { payment_links := [linkWithO1], transactions := [txnForO1] }
          (Except.ok payloadCompleted) 1 "W1").1
        (Except.ok payloadCompleted) 2 "W2").1.webhook_logs.length
      = (paypal_webhook { payment_links := [linkWithO1], transactions := [txnForO1] }
          (Except.ok payloadCompleted) 1 "W1").1.webhook_logs.length + 1 :=
  C2_amended { payment_links := [linkWithO1], transactions := [txnForO1] }
    payloadCompleted 1 2 "W1" "W2" rfl

/-! ### C6 -/

/-- A pending link carrying order id "OX" (attachable via the public PUT
status endpoint) while no Transaction for "OX" exists. -/
def linkWithOX : PaymentLink :=
  { id := "PAY-3", amount := "5", currency := "USD", status := "Pending",
    paypal_order_id := some "OX" }

/-- A DENIED capture payload for order "OX", provider event "EV2". -/
def payloadDeniedOX : WebhookPayload :=
  { event_type := some "PAYMENT.CAPTURE.DENIED", id := some "EV2", order_id := some "OX" }

/-- C6 (as stated) is FALSE in one corner: the DENIED branch looks up the
PaymentLink by its own `paypal_order_id` field, independently of the
transactions collection.  In a store whose transactions collection is
empty (so no Transaction matches order "OX") but where a link carries
`paypal_order_id = "OX"`, the webhook flips that link from "Pending" to
"Failed". -/
theorem C6_counterexample :
    ({ payment_links := [linkWithOX] } : DB).transactions = [] ∧
    (paypal_webhook { payment_links := [linkWithOX] }
        (Except.ok payloadDeniedOX) 1 "W1").1.payment_links.map PaymentLink.status
      = ["Failed"] ∧
    linkWithOX.status = "Pending" :=
  ⟨rfl, rfl, rfl⟩

/-- C6 amended: when a PAYMENT.CAPTURE.DENIED webhook carries an order id
that matches no stored Transaction AND no stored PaymentLink carries that
order id, the WebhookEvent is stored marked `processed = true`, no
Transaction and no PaymentLink is modified, and a success response (no
error) is returned to the provider.  (If some PaymentLink does carry the
order id, it is set to "Failed" despite the missing Transaction — see the
counterexample.) -/
theorem C6_amended (st : DB) (p : WebhookPayload) (oid : String) (now : Nat) (lid : String)
    (hev : p.event_type = some "PAYMENT.CAPTURE.DENIED")
    (hoid : p.order_id = some oid)
    (htx : ∀ t ∈ st.transactions, (t.paypal_order_id == oid) = false)
    (hlk : ∀ l ∈ st.payment_links, (l.paypal_order_id == some oid) = false)
    (hfresh : ∀ w ∈ st.webhook_logs, (w.id == lid) = false) :
    (paypal_webhook st (Except.ok p) now lid).2 = { status := "success" } ∧
    (paypal_webhook st (Except.ok p) now lid).1.transactions = st.transactions ∧
    (paypal_webhook st (Except.ok p) now lid).1.payment_links = st.payment_links ∧
    (paypal_webhook st (Except.ok p) now lid).1.webhook_logs
        = st.webhook_logs ++ [{ insertedLog p now lid with processed := true }] := by
  obtain ⟨hT, hL, hlogs, hresp⟩ := paypal_webhook_ok_spec st p now lid
  have hfnone : st.payment_links.find? (fun l => l.paypal_order_id == some oid) = none :=
    List.find?_eq_none.mpr fun l hl => by simp [hlk l hl]
  refine ⟨hresp, ?_, ?_, ?_⟩
  · rw [hT, webhook_dispatch_denied st p now oid hev hoid]
    show updateFirst (fun t => t.paypal_order_id == oid)
      (fun t => { t with status := "DENIED" }) st.transactions = st.transactions
    exact updateFirst_of_all_false _ _ _ htx
  · rw [hL, webhook_dispatch_denied st p now oid hev hoid]
    show (match st.payment_links.find? (fun l => l.paypal_order_id == some oid) with
          | none => st.payment_links
          | some pl => updateFirst (fun l => l.id == pl.id)
              (fun l => { l with status := "Failed", updated_at := now })
              st.payment_links) = st.payment_links
    rw [hfnone]
  · rw [hlogs, webhook_dispatch_logs]
    show updateFirst (fun w => w.id == lid) (fun w => { w with processed := true })
        (st.webhook_logs ++ [insertedLog p now lid])
      = st.webhook_logs ++ [{ insertedLog p now lid with processed := true }]
    rw [updateFirst_append_last _ _ _ _ hfresh (by simp [insertedLog])]

/-- Witness for C6 amended: a DENIED event for order "OX" hits a store
holding only an unrelated link and an unrelated transaction. -/
theorem C6_amended_witness :
    (paypal_webhook { payment_links := [linkPending], transactions := [txnOtherOrder] }
        (Except.ok payloadDeniedOX) 3 "W7").2 = { status := "success" } ∧
    (paypal_webhook { payment_links := [linkPending], transactions := [txnOtherOrder] }
        (Except.ok payloadDeniedOX) 3 "W7").1.transactions = [txnOtherOrder] ∧
    (paypal_webhook { payment_links := [linkPending], transactions := [txnOtherOrder] }
        (Except.ok payloadDeniedOX) 3 "W7").1.payment_links = [linkPending] ∧
    (paypal_webhook { payment_links := [linkPending], transactions := [txnOtherOrder] }
        (Except.ok payloadDeniedOX) 3 "W7").1.webhook_logs
      = [] ++ [{ insertedLog payloadDeniedOX 3 "W7" with processed := true }] :=
  C6_amended { payment_links := [linkPending], transactions := [txnOtherOrder] }
    payloadDeniedOX "OX" 3 "W7" rfl rfl (by decide) (by decide) (by decide)
